import Mathlib

/-!
Shallow embedding of the dealer-ordering backend (src/backend/server.py).

The persistent store (MongoDB collections `dealers`, `products`, `cart_items`,
`orders`) is modelled as a `DB` record of lists; each HTTP handler becomes a
pure function from the pre-state (plus the request data and the values the
handler would draw from random/uuid/clock sources, passed as parameters) to a
`Except ApiError result × DB` pair: the returned `DB` is the post-state, and
every `raise HTTPException` in the source happens before any write, so error
results return the pre-state unchanged, exactly as the database is left
unchanged in the source.

Monetary amounts (`price`, `subtotal`, `total_amount`, `credit_limit`,
`outstanding_balance`) are Python floats in the source; they are modelled as
`ℚ` here, which preserves the comparison and update logic exactly on all
inputs whose arithmetic is float-exact.  Quantities are Python `int`,
modelled as `ℤ`.  Timestamps are modelled as `ℕ` instants.
-/

namespace CementDealer

/-- The `OrderStatus` enum of the source. -/
inductive OrderStatus where
  | pending
  | confirmed
  | processing
  | shipped
  | delivered
  | cancelled
deriving DecidableEq

/-- The `PaymentMethod` enum of the source: cash-on-delivery or account credit. -/
inductive PaymentMethod where
  | cod
  | account
deriving DecidableEq

/-- The `PaymentStatus` enum of the source. -/
inductive PaymentStatus where
  | pending
  | completed
  | failed
deriving DecidableEq

/-- The `Dealer` document (pydantic model `Dealer`), `created_at` omitted. -/
structure Dealer where
  id : String
  name : String
  phone : String
  email : String
  business_name : String
  address : String
  gst_number : Option String
  credit_limit : ℚ
  outstanding_balance : ℚ
  auth_token : Option String
  otp : Option String
  otp_expires_at : Option ℕ
deriving DecidableEq

/-- The `Product` document, `specifications`/`created_at` omitted (inert). -/
structure Product where
  id : String
  name : String
  description : String
  category : String
  grade : String
  packaging : String
  price : ℚ
  stock : ℤ
  image_url : String
deriving DecidableEq

/-- The `CartItem` document, `created_at` omitted. -/
structure CartItem where
  id : String
  dealer_id : String
  product_id : String
  quantity : ℤ
deriving DecidableEq

/-- Request body of `POST /cart` (`CartItemCreate`): no constraint on
`quantity` beyond being an `int`, exactly as in the source. -/
structure CartItemCreate where
  product_id : String
  quantity : ℤ
deriving DecidableEq

/-- Request body of `POST /orders` (`OrderCreate`). -/
structure OrderCreate where
  payment_method : PaymentMethod
  delivery_address : String
  notes : Option String
deriving DecidableEq

/-- Request body of `POST /auth/verify-otp` (`VerifyOTPRequest`). -/
structure VerifyOTPRequest where
  phone : String
  otp : String
deriving DecidableEq

/-- The embedded `OrderItem` value object. -/
structure OrderItem where
  product_id : String
  product_name : String
  quantity : ℤ
  price : ℚ
  subtotal : ℚ
deriving DecidableEq

/-- The `Order` document, `created_at`/`updated_at` omitted. -/
structure Order where
  id : String
  order_number : String
  dealer_id : String
  items : List OrderItem
  total_amount : ℚ
  payment_method : PaymentMethod
  payment_status : PaymentStatus
  order_status : OrderStatus
  delivery_address : String
  notes : Option String
deriving DecidableEq

/-- Response of `GET /dashboard/stats` (`DashboardStats`). -/
structure DashboardStats where
  total_orders : ℕ
  pending_orders : ℕ
  delivered_orders : ℕ
  total_spent : ℚ
  credit_available : ℚ
  outstanding_balance : ℚ
deriving DecidableEq

/-- Each `raise HTTPException(...)` site of the embedded handlers, keyed by
its detail message.  `insufficientCredit` is the 400 raised in `create_order`
whose detail f-string interpolates the available credit and the required
total; the two amounts are carried structurally here. -/
inductive ApiError where
  | notFound (detail : String)
  | badRequest (detail : String)
  | insufficientCredit (available required : ℚ)
  | internalError
deriving DecidableEq

/-- The four MongoDB collections used by the embedded handlers. -/
structure DB where
  dealers : List Dealer
  products : List Product
  cart_items : List CartItem
  orders : List Order
deriving DecidableEq

/-- Mongo `update_one`: apply `f` to the first element satisfying `p`,
leave the rest unchanged. -/
def update_first (p : α → Bool) (f : α → α) : List α → List α
  | [] => []
  | x :: xs => if p x then f x :: xs else x :: update_first p f xs

/-- Lookup `db.products.find_one` by product id. -/
def find_product (db : DB) (pid : String) : Option Product :=
  db.products.find? (fun p => p.id == pid)

/-- Query for the dealer's cart rows (`db.cart_items.find` by dealer id), in
collection order. -/
def dealer_cart (db : DB) (did : String) : List CartItem :=
  db.cart_items.filter (fun c => c.dealer_id == did)

/-- The `OrderItem` snapshot that `create_order` builds from one cart row and
its resolved product: name/price frozen, `subtotal = price * quantity`. -/
def order_item_of (item : CartItem) (p : Product) : OrderItem :=
  { product_id := p.id
    product_name := p.name
    quantity := item.quantity
    price := p.price
    subtotal := p.price * (item.quantity : ℚ) }

/-- One iteration of the item-building loop of `create_order`: resolve the
row's product; if it still exists, append a snapshot `OrderItem` and add its
subtotal to the running total, otherwise skip the row. -/
def build_step (db : DB) (acc : List OrderItem × ℚ) (item : CartItem) :
    List OrderItem × ℚ :=
  match find_product db item.product_id with
  | some p => (acc.1 ++ [order_item_of item p], acc.2 + p.price * (item.quantity : ℚ))
  | none => acc

/-- The item-building loop of `create_order`: iterate the cart rows in order,
starting from `order_items = []`, `total_amount = 0.0`. -/
def build_items (db : DB) (cart : List CartItem) : List OrderItem × ℚ :=
  cart.foldl (build_step db) ([], 0)

/-- Derived (spec-side) form of the item-building loop: the resolvable cart
rows, each mapped to its snapshot.  Related to `build_items` by
`build_items_eq` below. -/
def snapshot_items (db : DB) (cart : List CartItem) : List OrderItem :=
  cart.filterMap (fun item => (find_product db item.product_id).map (order_item_of item))

/-- Derived (spec-side) total of a cart: the sum of the subtotals of the
snapshots of its resolvable rows. -/
def cart_total (db : DB) (cart : List CartItem) : ℚ :=
  ((snapshot_items db cart).map OrderItem.subtotal).sum

/-- Handler `POST /cart` (`add_to_cart`): 404 if the product is unknown;
if a row for (dealer, product) exists its quantity is incremented by the
requested quantity, otherwise a new row (with fresh id `new_id`) is appended.
No validation of the requested quantity is performed. -/
def add_to_cart (db : DB) (dealer : Dealer) (item_data : CartItemCreate)
    (new_id : String) : Except ApiError CartItem × DB :=
  match find_product db item_data.product_id with
  | none => (.error (.notFound "Product not found"), db)
  | some _ =>
    match db.cart_items.find?
        (fun c => c.dealer_id == dealer.id && c.product_id == item_data.product_id) with
    | some existing =>
      let new_quantity := existing.quantity + item_data.quantity
      let db' := { db with
        cart_items := update_first (fun c => c.id == existing.id)
          (fun c => { c with quantity := new_quantity }) db.cart_items }
      (.ok { existing with quantity := new_quantity }, db')
    | none =>
      let cart_item : CartItem :=
        { id := new_id
          dealer_id := dealer.id
          product_id := item_data.product_id
          quantity := item_data.quantity }
      (.ok cart_item, { db with cart_items := db.cart_items ++ [cart_item] })

/-- Handler `POST /auth/verify-otp` (`verify_otp`): 404 if the phone is
unregistered, 400 "Invalid OTP" on mismatch (also when no OTP is stored,
since `None != code`), 400 "OTP expired" past the stored expiry; on success a
fresh token (`new_token`, drawn from `secrets` in the source) is stored and
the OTP and its expiry are cleared.  The returned dealer is the fetched
document with only `auth_token` overwritten, as in the source.
`fromisoformat(None)` in the source would throw: modelled as
`internalError`. -/
def verify_otp (db : DB) (request : VerifyOTPRequest) (now : ℕ)
    (new_token : String) : Except ApiError (String × Dealer) × DB :=
  match db.dealers.find? (fun d => d.phone == request.phone) with
  | none => (.error (.notFound "Phone number not registered"), db)
  | some dealer_doc =>
    if dealer_doc.otp = some request.otp then
      match dealer_doc.otp_expires_at with
      | none => (.error .internalError, db)
      | some otp_expires_at =>
        if now > otp_expires_at then
          (.error (.badRequest "OTP expired"), db)
        else
          let db' := { db with
            dealers := update_first (fun d => d.phone == request.phone)
              (fun d => { d with
                auth_token := some new_token
                otp := none
                otp_expires_at := none }) db.dealers }
          (.ok (new_token, { dealer_doc with auth_token := some new_token }), db')
    else
      (.error (.badRequest "Invalid OTP"), db)

/-- Handler `POST /orders` (`create_order`): read the dealer's cart (400
"Cart is empty" if it has no rows), build the item snapshots and total via
`build_items`, enforce the credit limit for account payment (400 carrying
available and required amounts), then persist the order, increase the
dealer's outstanding balance by the total for account payment, and clear the
cart.  `order_id`/`order_number` stand for the uuid and the generated order
number of the source. -/
def create_order (db : DB) (dealer : Dealer) (order_data : OrderCreate)
    (order_id order_number : String) : Except ApiError Order × DB :=
  let cart_items := dealer_cart db dealer.id
  if cart_items = [] then
    (.error (.badRequest "Cart is empty"), db)
  else
    let built := build_items db cart_items
    let order_items := built.1
    let total_amount := built.2
    let available_credit := dealer.credit_limit - dealer.outstanding_balance
    if order_data.payment_method = PaymentMethod.account ∧ total_amount > available_credit then
      (.error (.insufficientCredit available_credit total_amount), db)
    else
      let order : Order :=
        { id := order_id
          order_number := order_number
          dealer_id := dealer.id
          items := order_items
          total_amount := total_amount
          payment_method := order_data.payment_method
          payment_status :=
            if order_data.payment_method = PaymentMethod.cod then
              PaymentStatus.pending
            else
              PaymentStatus.completed
          order_status := OrderStatus.pending
          delivery_address := order_data.delivery_address
          notes := order_data.notes }
      let db1 := { db with orders := db.orders ++ [order] }
      let db2 :=
        if order_data.payment_method = PaymentMethod.account then
          { db1 with
            dealers := update_first (fun d => d.id == dealer.id)
              (fun d => { d with
                outstanding_balance := dealer.outstanding_balance + total_amount })
              db1.dealers }
        else
          db1
      let db3 := { db2 with
        cart_items := db2.cart_items.filter (fun c => !(c.dealer_id == dealer.id)) }
      (.ok order, db3)

/-- Handler `GET /dashboard/stats` (`get_dashboard_stats`): a pure fold over
the dealer's orders; no write to any collection (the embedding returns no
`DB` because the source performs reads only). -/
def get_dashboard_stats (db : DB) (dealer : Dealer) : DashboardStats :=
  let orders := db.orders.filter (fun o => o.dealer_id == dealer.id)
  { total_orders := orders.length
    pending_orders := (orders.filter (fun o => o.order_status = OrderStatus.pending)).length
    delivered_orders := (orders.filter (fun o => o.order_status = OrderStatus.delivered)).length
    total_spent := (orders.map Order.total_amount).sum
    credit_available := dealer.credit_limit - dealer.outstanding_balance
    outstanding_balance := dealer.outstanding_balance }

/-!  Concrete example data, used by the witnesses and counterexamples. -/

/-- Example product: the seeded OPC 43 cement at ₹350 per bag. -/
def prodA : Product :=
  { id := "p1", name := "OPC 43 Grade Cement", description := "OPC 43"
    category := "OPC", grade := "43", packaging := "50kg bag"
    price := 350, stock := 5000, image_url := "img" }

/-- Example dealer with the default credit terms and a pending OTP. -/
def dealerA : Dealer :=
  { id := "d1", name := "Asha", phone := "9000000001", email := "a@x.in"
    business_name := "Asha Traders", address := "Pune", gst_number := none
    credit_limit := 100000, outstanding_balance := 0
    auth_token := none, otp := some "123456", otp_expires_at := some 1000 }

/-- Example cart row: 10 bags of `prodA` for `dealerA`. -/
def cartA : CartItem := { id := "c1", dealer_id := "d1", product_id := "p1", quantity := 10 }

/-- Example database: one dealer, one product, one cart row, no orders. -/
def dbA : DB := { dealers := [dealerA], products := [prodA], cart_items := [cartA], orders := [] }

/-- Example account-credit checkout request. -/
def odAccount : OrderCreate :=
  { payment_method := .account, delivery_address := "Pune", notes := none }

/-- Example cash-on-delivery checkout request. -/
def odCod : OrderCreate :=
  { payment_method := .cod, delivery_address := "Pune", notes := none }

/-- Variant of `dealerA` whose outstanding balance leaves only ₹1000 of credit. -/
def dealerB : Dealer := { dealerA with outstanding_balance := 99000 }

/-- Store `dbA` with `dealerB` in place of `dealerA`. -/
def dbB : DB := { dealers := [dealerB], products := [prodA], cart_items := [cartA], orders := [] }

/-- Store `dbA` with an empty cart collection. -/
def dbEmptyCart : DB := { dealers := [dealerA], products := [prodA], cart_items := [], orders := [] }

/-- The order that checking out `dbA` by account credit produces. -/
def orderA : Order :=
  { id := "o1", order_number := "ORD-1", dealer_id := "d1"
    items := [{ product_id := "p1", product_name := "OPC 43 Grade Cement"
                quantity := 10, price := 350, subtotal := 3500 }]
    total_amount := 3500, payment_method := .account
    payment_status := .completed, order_status := .pending
    delivery_address := "Pune", notes := none }

/-- The post-state of checking out `dbA` by account credit. -/
def dbA' : DB :=
  { dealers := [{ dealerA with outstanding_balance := 3500 }]
    products := [prodA], cart_items := [], orders := [orderA] }

/-- First add of the C5 scenario: 3 bags of `prodA` land in the empty cart. -/
def cartW1 : CartItem := { id := "c1", dealer_id := "d1", product_id := "p1", quantity := 3 }

/-- Store after the first add of the C5 scenario. -/
def dbW1 : DB := { dealers := [dealerA], products := [prodA], cart_items := [cartW1], orders := [] }

/-- Second add of the C5 scenario: 4 more bags merge into the same row. -/
def cartW2 : CartItem := { id := "c1", dealer_id := "d1", product_id := "p1", quantity := 7 }

/-- Store after the second add of the C5 scenario. -/
def dbW2 : DB := { dealers := [dealerA], products := [prodA], cart_items := [cartW2], orders := [] }

/-- OTP login request matching `dealerA`'s phone and stored code. -/
def reqA : VerifyOTPRequest := { phone := "9000000001", otp := "123456" }

/-- State of `dealerA` after a successful OTP verification issuing token "t1". -/
def dealerAVerified : Dealer :=
  { dealerA with auth_token := some "t1", otp := none, otp_expires_at := none }

/-- State of `dbA` after a successful OTP verification issuing token "t1". -/
def dbAVerified : DB :=
  { dealers := [dealerAVerified], products := [prodA], cart_items := [cartA], orders := [] }

/-- A cart row whose product id resolves to nothing in the catalog. -/
def cartGhost : CartItem :=
  { id := "c9", dealer_id := "d1", product_id := "ghost", quantity := 2 }

/-- A database whose only cart row points at a deleted product. -/
def dbGhost : DB :=
  { dealers := [dealerA], products := [prodA], cart_items := [cartGhost], orders := [] }

/-- The order that checking out `dbGhost` by cash-on-delivery produces:
empty `items`, zero total. -/
def orderGhost : Order :=
  { id := "o9", order_number := "ORD-9", dealer_id := "d1", items := []
    total_amount := 0, payment_method := .cod, payment_status := .pending
    order_status := .pending, delivery_address := "Pune", notes := none }

/-!  General lemmas about the embedded store operations. -/

/-- Applying `update_first` leaves a prefix with no match untouched. -/
theorem update_first_append (p : α → Bool) (f : α → α) :
    ∀ l₁ l₂ : List α, (∀ x ∈ l₁, p x = false) →
      update_first p f (l₁ ++ l₂) = l₁ ++ update_first p f l₂
  | [], _, _ => rfl
  | x :: xs, l₂, h => by
    have hx : p x = false := h x (List.mem_cons_self x xs)
    simp only [List.cons_append, update_first, hx, Bool.false_eq_true, if_false]
    exact congrArg (x :: ·)
      (update_first_append p f xs l₂ (fun y hy => h y (List.mem_cons_of_mem x hy)))

/-- The first match of `p` after `update_first p f` is the image under `f` of
the first match before, provided `f` preserves `p` on matches. -/
theorem find?_update_first (p : α → Bool) (f : α → α)
    (hf : ∀ x, p x = true → p (f x) = true) :
    ∀ l : List α, (update_first p f l).find? p = (l.find? p).map f
  | [] => rfl
  | x :: xs => by
    cases hx : p x with
    | false =>
      have hx' : ¬ p x = true := by simp [hx]
      have hu : update_first p f (x :: xs) = x :: update_first p f xs := by
        simp [update_first, hx]
      rw [hu, List.find?_cons_of_neg _ hx', List.find?_cons_of_neg _ hx']
      exact find?_update_first p f hf xs
    | true =>
      have hu : update_first p f (x :: xs) = f x :: xs := by
        simp [update_first, hx]
      rw [hu, List.find?_cons_of_pos _ (hf x hx), List.find?_cons_of_pos _ hx,
        Option.map_some']

/-- Filtering for `p` after keeping only the rows failing `p` yields nothing:
the cart really is empty for the dealer after `delete_many`. -/
theorem filter_filter_not (p : α → Bool) :
    ∀ l : List α, (l.filter (fun x => !(p x))).filter p = []
  | [] => rfl
  | x :: xs => by
    cases hx : p x with
    | false => simp [List.filter_cons, hx, filter_filter_not p xs]
    | true => simp [List.filter_cons, hx, filter_filter_not p xs]

/-- Unfolding lemma: the snapshot of a cons cart. -/
theorem snapshot_items_cons (db : DB) (item : CartItem) (rest : List CartItem) :
    snapshot_items db (item :: rest) =
      match find_product db item.product_id with
      | some p => order_item_of item p :: snapshot_items db rest
      | none => snapshot_items db rest := by
  cases hp : find_product db item.product_id <;>
    simp [snapshot_items, List.filterMap_cons, hp]

/-- The item-building loop, run from any accumulator, appends exactly the
snapshots of the resolvable rows and adds exactly the sum of their
subtotals. -/
theorem build_items_go (db : DB) :
    ∀ (cart : List CartItem) (acc : List OrderItem × ℚ),
      cart.foldl (build_step db) acc =
        (acc.1 ++ snapshot_items db cart,
         acc.2 + ((snapshot_items db cart).map OrderItem.subtotal).sum)
  | [], acc => by simp [snapshot_items]
  | item :: rest, acc => by
    rw [List.foldl_cons, snapshot_items_cons]
    cases hp : find_product db item.product_id with
    | none =>
      have hb : build_step db acc item = acc := by simp [build_step, hp]
      rw [hb]
      exact build_items_go db rest acc
    | some p =>
      have hb : build_step db acc item =
          (acc.1 ++ [order_item_of item p], acc.2 + p.price * (item.quantity : ℚ)) := by
        simp [build_step, hp]
      rw [hb, build_items_go db rest _]
      simp [order_item_of, List.append_assoc, add_assoc]

/-- The loop `build_items` computes the snapshots of the resolvable rows together with
the sum of their subtotals. -/
theorem build_items_eq (db : DB) (cart : List CartItem) :
    build_items db cart =
      (snapshot_items db cart, ((snapshot_items db cart).map OrderItem.subtotal).sum) := by
  simpa using build_items_go db cart ([], 0)

/-- Every snapshot item records `subtotal = price * quantity`. -/
theorem snapshot_items_subtotal (db : DB) (cart : List CartItem) :
    ∀ it ∈ snapshot_items db cart, it.subtotal = it.price * (it.quantity : ℚ) := by
  intro it hit
  obtain ⟨item, -, hmap⟩ := List.mem_filterMap.mp hit
  obtain ⟨p, -, heq⟩ := Option.map_eq_some'.mp hmap
  subst heq
  rfl

/-- Inversion of a successful `create_order`: the returned order snapshots
the resolvable cart rows with their subtotal sum as total, its payment status
follows the payment method, and the post-state appends exactly that order,
clears the dealer's cart rows, updates the first dealer record matching the
dealer's id by adding the total to the snapshot balance for account payment,
and touches nothing else. -/
theorem create_order_ok (db : DB) (dealer : Dealer) (od : OrderCreate)
    (oid onum : String) (order : Order) (db' : DB)
    (hres : create_order db dealer od oid onum = (.ok order, db')) :
    order.items = snapshot_items db (dealer_cart db dealer.id) ∧
    order.total_amount =
      ((snapshot_items db (dealer_cart db dealer.id)).map OrderItem.subtotal).sum ∧
    order.payment_status =
      (if od.payment_method = PaymentMethod.cod then PaymentStatus.pending
       else PaymentStatus.completed) ∧
    db'.products = db.products ∧
    db'.orders = db.orders ++ [order] ∧
    db'.cart_items = db.cart_items.filter (fun c => !(c.dealer_id == dealer.id)) ∧
    db'.dealers =
      (if od.payment_method = PaymentMethod.account then
        update_first (fun d => d.id == dealer.id)
          (fun d => { d with
            outstanding_balance := dealer.outstanding_balance + order.total_amount })
          db.dealers
      else db.dealers) := by
  cases hpm : od.payment_method with
  | cod =>
    simp only [create_order, build_items_eq, hpm] at hres
    split at hres
    · simp at hres
    · simp only [reduceCtorEq, false_and, if_false, Prod.mk.injEq,
        Except.ok.injEq] at hres
      obtain ⟨ho, hd⟩ := hres
      subst ho
      subst hd
      simp [hpm]
  | account =>
    simp only [create_order, build_items_eq, hpm] at hres
    split at hres
    · simp at hres
    · split at hres
      · simp at hres
      · simp only [Prod.mk.injEq, Except.ok.injEq] at hres
        obtain ⟨ho, hd⟩ := hres
        subst ho
        subst hd
        simp [hpm]

/-- Boolean form of "this cart row is not for this dealer/product pair". -/
theorem cart_match_false (dealer_id pid : String) (c : CartItem)
    (h : ¬(c.dealer_id = dealer_id ∧ c.product_id = pid)) :
    (c.dealer_id == dealer_id && c.product_id == pid) = false := by
  by_cases hd : c.dealer_id = dealer_id
  · by_cases hq : c.product_id = pid
    · exact absurd ⟨hd, hq⟩ h
    · simp [hd, hq]
  · simp [hd]

/-- Running `verify_otp` against a stored dealer whose OTP does not match the
submitted code fails with "Invalid OTP" and leaves the store unchanged. -/
theorem verify_otp_invalid (db : DB) (request : VerifyOTPRequest) (now : ℕ)
    (tok : String) (d0 : Dealer)
    (hfind : db.dealers.find? (fun d => d.phone == request.phone) = some d0)
    (hotp : ¬ d0.otp = some request.otp) :
    verify_otp db request now tok = (.error (.badRequest "Invalid OTP"), db) := by
  unfold verify_otp
  simp only [hfind]
  rw [if_neg hotp]

/-- Concrete run shared by several witnesses: checking out `dbA` by account
credit yields `orderA` and post-state `dbA'`. -/
theorem dbA_account_run :
    create_order dbA dealerA odAccount "o1" "ORD-1" = (.ok orderA, dbA') := by
  simp [create_order, dealer_cart, build_items, build_step, find_product, dbA, dealerA,
    prodA, cartA, order_item_of, update_first, odAccount, orderA, dbA']
  try norm_num

/-!  The claims. -/

/-- Claim C1: every account-credit order placement that succeeds adds the
order's `total_amount` to the stored dealer's `outstanding_balance`, leaves
the dealer's cart empty, persists exactly the one new order (appended to the
order collection), and that order's items are the snapshot of the dealer's
cart rows at checkout time (resolvable rows, frozen name/price, subtotal =
price × quantity). -/
theorem account_order_success (db : DB) (dealer : Dealer) (od : OrderCreate)
    (oid onum : String) (order : Order) (db' : DB)
    (hpm : od.payment_method = PaymentMethod.account)
    (hres : create_order db dealer od oid onum = (.ok order, db')) :
    db'.dealers.find? (fun d => d.id == dealer.id) =
      (db.dealers.find? (fun d => d.id == dealer.id)).map
        (fun d => { d with
          outstanding_balance := dealer.outstanding_balance + order.total_amount }) ∧
    dealer_cart db' dealer.id = [] ∧
    db'.orders = db.orders ++ [order] ∧
    order.items = snapshot_items db (dealer_cart db dealer.id) := by
  obtain ⟨hitems, htot, hps, hprods, horders, hcart, hdealers⟩ :=
    create_order_ok db dealer od oid onum order db' hres
  refine ⟨?_, ?_, horders, hitems⟩
  · rw [hdealers, if_pos hpm]
    exact find?_update_first (fun d => d.id == dealer.id)
      (fun d => { d with
        outstanding_balance := dealer.outstanding_balance + order.total_amount })
      (fun x hx => hx) db.dealers
  · show db'.cart_items.filter _ = []
    rw [hcart]
    exact filter_filter_not _ db.cart_items

/-- Witness for `account_order_success`: the concrete ₹3500 checkout of
`dbA`. -/
theorem account_order_success_witness :
    create_order dbA dealerA odAccount "o1" "ORD-1" = (.ok orderA, dbA') ∧
    dbA'.dealers.find? (fun d => d.id == dealerA.id) =
      (dbA.dealers.find? (fun d => d.id == dealerA.id)).map
        (fun d => { d with
          outstanding_balance := dealerA.outstanding_balance + orderA.total_amount }) ∧
    dealer_cart dbA' dealerA.id = [] ∧
    dbA'.orders = dbA.orders ++ [orderA] ∧
    orderA.items = snapshot_items dbA (dealer_cart dbA dealerA.id) :=
  ⟨dbA_account_run,
   account_order_success dbA dealerA odAccount "o1" "ORD-1" orderA dbA' rfl dbA_account_run⟩

/-- Claim C2: an account-credit order whose total exceeds the available
credit (`credit_limit − outstanding_balance`) fails with the
insufficient-credit error carrying the available credit and the required
total, and the store is returned unchanged: no order, no balance change, the
cart untouched. -/
theorem account_order_insufficient_credit (db : DB) (dealer : Dealer) (od : OrderCreate)
    (oid onum : String)
    (hpm : od.payment_method = PaymentMethod.account)
    (hcart : dealer_cart db dealer.id ≠ [])
    (hover : cart_total db (dealer_cart db dealer.id) >
      dealer.credit_limit - dealer.outstanding_balance) :
    create_order db dealer od oid onum =
      (.error (.insufficientCredit (dealer.credit_limit - dealer.outstanding_balance)
        (cart_total db (dealer_cart db dealer.id))), db) := by
  simp only [create_order, build_items_eq]
  rw [if_neg hcart, if_pos ⟨hpm, hover⟩]
  rfl

/-- Witness for `account_order_insufficient_credit`: `dealerB` has ₹1000
available and a ₹3500 cart. -/
theorem account_order_insufficient_credit_witness :
    odAccount.payment_method = PaymentMethod.account ∧
    dealer_cart dbB dealerB.id ≠ [] ∧
    cart_total dbB (dealer_cart dbB dealerB.id) >
      dealerB.credit_limit - dealerB.outstanding_balance ∧
    create_order dbB dealerB odAccount "o1" "ORD-1" =
      (.error (.insufficientCredit (dealerB.credit_limit - dealerB.outstanding_balance)
        (cart_total dbB (dealer_cart dbB dealerB.id))), dbB) := by
  have h2 : dealer_cart dbB dealerB.id ≠ [] := by
    simp [dealer_cart, dbB, dealerB, dealerA, cartA]
  have h3 : cart_total dbB (dealer_cart dbB dealerB.id) >
      dealerB.credit_limit - dealerB.outstanding_balance := by
    simp [cart_total, dealer_cart, snapshot_items, find_product, dbB, dealerB, dealerA,
      prodA, cartA, order_item_of]
    norm_num
  exact ⟨rfl, h2, h3,
    account_order_insufficient_credit dbB dealerB odAccount "o1" "ORD-1" rfl h2 h3⟩

/-- Claim C3: `place_order` on a dealer whose cart has zero rows fails with
the 400 "Cart is empty" and returns the store exactly as it was: no order is
created and nothing is mutated. -/
theorem place_order_empty_cart (db : DB) (dealer : Dealer) (od : OrderCreate)
    (oid onum : String) (hcart : dealer_cart db dealer.id = []) :
    create_order db dealer od oid onum = (.error (.badRequest "Cart is empty"), db) := by
  simp [create_order, hcart]

/-- Witness for `place_order_empty_cart` at a concrete store. -/
theorem place_order_empty_cart_witness :
    dealer_cart dbEmptyCart dealerA.id = [] ∧
    create_order dbEmptyCart dealerA odAccount "o1" "ORD-1" =
      (.error (.badRequest "Cart is empty"), dbEmptyCart) :=
  ⟨rfl, place_order_empty_cart dbEmptyCart dealerA odAccount "o1" "ORD-1" rfl⟩

/-- Counterexample to claim C4 as stated: on a non-empty cart whose only
row's product was deleted from the catalog, `create_order` succeeds and
persists an order whose `items` list is empty. -/
theorem order_with_empty_items :
    dealer_cart dbGhost dealerA.id ≠ [] ∧
    (create_order dbGhost dealerA odCod "o9" "ORD-9").1 = .ok orderGhost ∧
    orderGhost.items = [] := by
  refine ⟨by simp [dealer_cart, dbGhost, dealerA, cartGhost], ?_, rfl⟩
  simp [create_order, dealer_cart, build_items, build_step, find_product, dbGhost,
    dealerA, prodA, cartGhost, odCod, orderGhost]

/-- Claim C4 (amended): every order produced by `place_order` has
`total_amount` equal to the sum of its items' subtotals, and each item's
subtotal equals unit price × quantity; the `items` list is non-empty
whenever at least one cart row's product still exists in the catalog, but it
is empty when every cart product was deleted between add-to-cart and
checkout. -/
theorem order_total_is_item_sum (db : DB) (dealer : Dealer) (od : OrderCreate)
    (oid onum : String) (order : Order) (db' : DB)
    (hres : create_order db dealer od oid onum = (.ok order, db')) :
    order.total_amount = (order.items.map OrderItem.subtotal).sum ∧
    (∀ it ∈ order.items, it.subtotal = it.price * (it.quantity : ℚ)) ∧
    ((∃ c ∈ dealer_cart db dealer.id, (find_product db c.product_id).isSome) →
      order.items ≠ []) := by
  obtain ⟨hitems, htot, -, -, -, -, -⟩ :=
    create_order_ok db dealer od oid onum order db' hres
  refine ⟨by rw [htot, hitems], ?_, ?_⟩
  · rw [hitems]
    exact snapshot_items_subtotal db _
  · rintro ⟨c, hc, hsome⟩ hnil
    rw [hitems] at hnil
    have hnone := List.filterMap_eq_nil_iff.mp hnil c hc
    rw [Option.map_eq_none'] at hnone
    simp [hnone] at hsome

/-- Witness for `order_total_is_item_sum`: the concrete checkout of `dbA`. -/
theorem order_total_is_item_sum_witness :
    create_order dbA dealerA odAccount "o1" "ORD-1" = (.ok orderA, dbA') ∧
    orderA.total_amount = (orderA.items.map OrderItem.subtotal).sum ∧
    (∀ it ∈ orderA.items, it.subtotal = it.price * (it.quantity : ℚ)) ∧
    orderA.items ≠ [] := by
  have h := order_total_is_item_sum dbA dealerA odAccount "o1" "ORD-1" orderA dbA'
    dbA_account_run
  refine ⟨dbA_account_run, h.1, h.2.1, h.2.2 ⟨cartA, ?_, ?_⟩⟩
  · simp [dealer_cart, dbA, dealerA, cartA]
  · simp [find_product, dbA, prodA, cartA]

/-- Claim C8: a successfully placed order has `payment_status` pending when
paid cash-on-delivery and completed when paid by account credit. -/
theorem payment_status_by_method (db : DB) (dealer : Dealer) (od : OrderCreate)
    (oid onum : String) (order : Order) (db' : DB)
    (hres : create_order db dealer od oid onum = (.ok order, db')) :
    (od.payment_method = PaymentMethod.cod →
      order.payment_status = PaymentStatus.pending) ∧
    (od.payment_method = PaymentMethod.account →
      order.payment_status = PaymentStatus.completed) := by
  obtain ⟨-, -, hps, -, -, -, -⟩ := create_order_ok db dealer od oid onum order db' hres
  constructor
  · intro h
    rw [hps, if_pos h]
  · intro h
    rw [hps, if_neg (by simp [h])]

/-- Witness for `payment_status_by_method`: the account-credit checkout of
`dbA` completes its payment immediately. -/
theorem payment_status_by_method_witness :
    create_order dbA dealerA odAccount "o1" "ORD-1" = (.ok orderA, dbA') ∧
    orderA.payment_status = PaymentStatus.completed :=
  ⟨dbA_account_run,
   (payment_status_by_method dbA dealerA odAccount "o1" "ORD-1" orderA dbA'
     dbA_account_run).2 rfl⟩

/-- Claim C5: starting from a cart with no row for the pair, `add(p, q1)`
followed by `add(p, q2)` for the same dealer and product leaves exactly one
cart row for that pair, with quantity `q1 + q2` — never two rows. -/
theorem add_twice_merges (db : DB) (dealer : Dealer) (pid : String) (q1 q2 : ℤ)
    (id1 id2 : String) (ci1 : CartItem) (db1 : DB) (ci2 : CartItem) (db2 : DB)
    (hprod : (find_product db pid).isSome)
    (hno : ∀ c ∈ db.cart_items, ¬(c.dealer_id = dealer.id ∧ c.product_id = pid))
    (hfresh : ∀ c ∈ db.cart_items, c.id ≠ id1)
    (h1 : add_to_cart db dealer ⟨pid, q1⟩ id1 = (.ok ci1, db1))
    (h2 : add_to_cart db1 dealer ⟨pid, q2⟩ id2 = (.ok ci2, db2)) :
    db2.cart_items.filter
        (fun c => c.dealer_id == dealer.id && c.product_id == pid) =
      [{ id := id1, dealer_id := dealer.id, product_id := pid, quantity := q1 + q2 }] := by
  obtain ⟨prod, hp⟩ := Option.isSome_iff_exists.mp hprod
  have hnoB : ∀ c ∈ db.cart_items,
      ¬((c.dealer_id == dealer.id && c.product_id == pid) = true) := by
    intro c hc
    simp [cart_match_false dealer.id pid c (hno c hc)]
  have hfind : db.cart_items.find?
      (fun c => c.dealer_id == dealer.id && c.product_id == pid) = none :=
    List.find?_eq_none.mpr hnoB
  simp only [add_to_cart, hp, hfind] at h1
  simp only [Prod.mk.injEq, Except.ok.injEq] at h1
  obtain ⟨hci1, hdb1⟩ := h1
  subst hdb1
  have hp1 : find_product
      ({ db with cart_items := db.cart_items ++
        [{ id := id1, dealer_id := dealer.id, product_id := pid, quantity := q1 }] } : DB)
      pid = some prod := hp
  have hfind2 : (db.cart_items ++
        [({ id := id1, dealer_id := dealer.id, product_id := pid, quantity := q1 } : CartItem)]).find?
      (fun c => c.dealer_id == dealer.id && c.product_id == pid) =
      some { id := id1, dealer_id := dealer.id, product_id := pid, quantity := q1 } := by
    rw [List.find?_append, hfind]
    simp
  simp only [add_to_cart, hp1, hfind2] at h2
  simp only [Prod.mk.injEq, Except.ok.injEq] at h2
  obtain ⟨hci2, hdb2⟩ := h2
  subst hdb2
  have hfreshB : ∀ c ∈ db.cart_items, ((c.id == id1) = false) := by
    intro c hc
    simp [hfresh c hc]
  show (update_first _ _ (db.cart_items ++ _)).filter _ = _
  rw [update_first_append _ _ db.cart_items _ hfreshB, List.filter_append,
    List.filter_eq_nil_iff.mpr hnoB]
  simp [update_first]

/-- Witness for `add_twice_merges`: adding 3 then 4 bags of `prodA` to the
empty cart leaves a single row of quantity 7. -/
theorem add_twice_merges_witness :
    (find_product dbEmptyCart "p1").isSome ∧
    add_to_cart dbEmptyCart dealerA ⟨"p1", 3⟩ "c1" = (.ok cartW1, dbW1) ∧
    add_to_cart dbW1 dealerA ⟨"p1", 4⟩ "c2" = (.ok cartW2, dbW2) ∧
    dbW2.cart_items.filter
        (fun c => c.dealer_id == dealerA.id && c.product_id == "p1") =
      [{ id := "c1", dealer_id := dealerA.id, product_id := "p1", quantity := 3 + 4 }] := by
  have hprod : (find_product dbEmptyCart "p1").isSome := by
    simp [find_product, dbEmptyCart, prodA]
  have h1 : add_to_cart dbEmptyCart dealerA ⟨"p1", 3⟩ "c1" = (.ok cartW1, dbW1) := by
    simp [add_to_cart, find_product, dbEmptyCart, dealerA, prodA, cartW1, dbW1]
  have h2 : add_to_cart dbW1 dealerA ⟨"p1", 4⟩ "c2" = (.ok cartW2, dbW2) := by
    simp [add_to_cart, find_product, dbW1, dealerA, prodA, cartW1, cartW2, dbW2,
      update_first]
  refine ⟨hprod, h1, h2, ?_⟩
  exact add_twice_merges dbEmptyCart dealerA "p1" 3 4 "c1" "c2" cartW1 dbW1 cartW2 dbW2
    hprod (by simp [dbEmptyCart]) (by simp [dbEmptyCart]) h1 h2

/-- Claim C7: once `verify_otp` succeeds, the stored OTP and its expiry are
cleared on the dealer record, and a second `verify_otp` with the same code
(at any time, issuing any token) fails with "Invalid OTP" and mutates
nothing. -/
theorem otp_single_use (db : DB) (request : VerifyOTPRequest) (now : ℕ)
    (tok : String) (resp : String × Dealer) (db' : DB)
    (h : verify_otp db request now tok = (.ok resp, db')) :
    (db'.dealers.find? (fun d => d.phone == request.phone)).map
        (fun d => (d.otp, d.otp_expires_at)) = some (none, none) ∧
    ∀ now2 tok2, verify_otp db' request now2 tok2 =
      (.error (.badRequest "Invalid OTP"), db') := by
  unfold verify_otp at h
  split at h
  · exact absurd h (by simp)
  · rename_i d0 hfind
    split at h
    · rename_i hotp
      split at h
      · exact absurd h (by simp)
      · rename_i texp hexp
        split at h
        · exact absurd h (by simp)
        · simp only [Prod.mk.injEq, Except.ok.injEq] at h
          obtain ⟨-, hdb⟩ := h
          subst hdb
          have hfind' : (update_first (fun d => d.phone == request.phone) (fun d => { d with auth_token := some tok, otp := none, otp_expires_at := none }) db.dealers).find? (fun d => d.phone == request.phone) = some { d0 with auth_token := some tok, otp := none, otp_expires_at := none } := by
            rw [find?_update_first (fun d => d.phone == request.phone) (fun d => { d with auth_token := some tok, otp := none, otp_expires_at := none }) (fun x hx => hx) db.dealers, hfind, Option.map_some']
          constructor
          · show (List.find? _ _).map _ = _
            rw [hfind']
            rfl
          · intro now2 tok2
            exact verify_otp_invalid _ request now2 tok2 _ hfind' (by simp)
    · exact absurd h (by simp)

/-- Witness for `otp_single_use`: `dealerA` verifies code "123456" at time
500, then the repeat attempt at time 600 fails. -/
theorem otp_single_use_witness :
    verify_otp dbA reqA 500 "t1" =
      (.ok ("t1", { dealerA with auth_token := some "t1" }), dbAVerified) ∧
    (dbAVerified.dealers.find? (fun d => d.phone == reqA.phone)).map
        (fun d => (d.otp, d.otp_expires_at)) = some (none, none) ∧
    verify_otp dbAVerified reqA 600 "t2" =
      (.error (.badRequest "Invalid OTP"), dbAVerified) := by
  have hrun : verify_otp dbA reqA 500 "t1" =
      (.ok ("t1", { dealerA with auth_token := some "t1" }), dbAVerified) := by
    simp [verify_otp, dbA, dealerA, reqA, update_first, dbAVerified, dealerAVerified]
  have h := otp_single_use dbA reqA 500 "t1" _ _ hrun
  exact ⟨hrun, h.1, h.2 600 "t2"⟩

/-- Claim C9: the dashboard statistics are exactly the counts and sums over
the dealer's orders — total count, pending count, delivered count, total
spent over all orders (cancelled included) — together with
`credit_available = credit_limit − outstanding_balance`; the handler reads
only (its embedding returns no store, because the source performs no
write). -/
theorem dashboard_stats_correct (db : DB) (dealer : Dealer) :
    (get_dashboard_stats db dealer).total_orders =
      (db.orders.filter (fun o => o.dealer_id == dealer.id)).length ∧
    (get_dashboard_stats db dealer).pending_orders =
      (db.orders.filter (fun o => o.dealer_id == dealer.id)).countP
        (fun o => o.order_status == OrderStatus.pending) ∧
    (get_dashboard_stats db dealer).delivered_orders =
      (db.orders.filter (fun o => o.dealer_id == dealer.id)).countP
        (fun o => o.order_status == OrderStatus.delivered) ∧
    (get_dashboard_stats db dealer).total_spent =
      ((db.orders.filter (fun o => o.dealer_id == dealer.id)).map
        Order.total_amount).foldl (fun a b => a + b) 0 ∧
    (get_dashboard_stats db dealer).credit_available =
      dealer.credit_limit - dealer.outstanding_balance ∧
    (get_dashboard_stats db dealer).outstanding_balance =
      dealer.outstanding_balance := by
  refine ⟨rfl, ?_, ?_, ?_, rfl, rfl⟩
  · rw [List.countP_eq_length_filter]
    rfl
  · rw [List.countP_eq_length_filter]
    rfl
  · exact List.sum_eq_foldl

/-- Claim C10: `add_to_cart` validates nothing about the requested quantity:
with any quantity `q ≤ 0` it still succeeds for an existing product, and on
a cart with no row for the pair it creates a row carrying that non-positive
quantity — so cart rows with quantity < 1 are reachable through the public
interface. -/
theorem add_to_cart_accepts_nonpositive_quantity (db : DB) (dealer : Dealer)
    (pid : String) (q : ℤ) (nid : String)
    (hprod : (find_product db pid).isSome) (hq : q ≤ 0) :
    (∃ ci db', add_to_cart db dealer ⟨pid, q⟩ nid = (.ok ci, db')) ∧
    ((∀ c ∈ db.cart_items, ¬(c.dealer_id = dealer.id ∧ c.product_id = pid)) →
      add_to_cart db dealer ⟨pid, q⟩ nid =
        (.ok { id := nid, dealer_id := dealer.id, product_id := pid, quantity := q },
         { db with cart_items := db.cart_items ++
            [{ id := nid, dealer_id := dealer.id, product_id := pid, quantity := q }] })) := by
  obtain ⟨prod, hp⟩ := Option.isSome_iff_exists.mp hprod
  constructor
  · cases hex : db.cart_items.find?
        (fun c => c.dealer_id == dealer.id && c.product_id == pid) with
    | none =>
      refine ⟨{ id := nid, dealer_id := dealer.id, product_id := pid, quantity := q },
        { db with cart_items := db.cart_items ++
          [{ id := nid, dealer_id := dealer.id, product_id := pid, quantity := q }] }, ?_⟩
      simp only [add_to_cart, hp, hex]
    | some e =>
      refine ⟨{ e with quantity := e.quantity + q }, { db with cart_items := update_first (fun c => c.id == e.id) (fun c => { c with quantity := e.quantity + q }) db.cart_items }, ?_⟩
      simp only [add_to_cart, hp, hex]
  · intro hno
    have hnoB : ∀ c ∈ db.cart_items,
        ¬((c.dealer_id == dealer.id && c.product_id == pid) = true) := by
      intro c hc
      simp [cart_match_false dealer.id pid c (hno c hc)]
    have hfind : db.cart_items.find?
        (fun c => c.dealer_id == dealer.id && c.product_id == pid) = none :=
      List.find?_eq_none.mpr hnoB
    simp only [add_to_cart, hp, hfind]

/-- Witness for `add_to_cart_accepts_nonpositive_quantity`: quantity −3 is
accepted and lands in the cart. -/
theorem add_to_cart_accepts_nonpositive_quantity_witness :
    (find_product dbEmptyCart "p1").isSome ∧ (-3 : ℤ) ≤ 0 ∧
    (∃ ci db', add_to_cart dbEmptyCart dealerA ⟨"p1", -3⟩ "c1" = (.ok ci, db')) ∧
    add_to_cart dbEmptyCart dealerA ⟨"p1", -3⟩ "c1" =
      (.ok { id := "c1", dealer_id := dealerA.id, product_id := "p1", quantity := -3 },
       { dbEmptyCart with cart_items :=
          [{ id := "c1", dealer_id := dealerA.id, product_id := "p1", quantity := -3 }] }) := by
  have hprod : (find_product dbEmptyCart "p1").isSome := by
    simp [find_product, dbEmptyCart, prodA]
  have h := add_to_cart_accepts_nonpositive_quantity dbEmptyCart dealerA "p1" (-3) "c1"
    hprod (by decide)
  refine ⟨hprod, by decide, h.1, ?_⟩
  have h2 := h.2 (by simp [dbEmptyCart])
  simpa [dbEmptyCart] using h2

end CementDealer
